import Mathlib

/-
  Verification of the compositing/transform pipeline of the team-photo
  single-page application (chroma keying, tone adjustment, geometric
  transform, backdrop compositing, crop resolution, background-generation
  state handling).

  Modelling conventions:
  * 8-bit channel values and all per-pixel arithmetic are embedded as exact
    rationals (the source computes in JavaScript doubles; every concrete
    value appearing in a theorem below is exactly representable).
  * `Math.sqrt` is irrational in general, so the Euclidean color distance is
    passed as an explicit value `dist` constrained by the decidable predicate
    `isDist` (`dist ≥ 0` and `dist² = Σ (channel differences)²`), which pins
    it to the source's `Math.sqrt((r-kr)**2 + (g-kg)**2 + (b-kb)**2)`.
  * Transcendental constants precomputed by the source outside its pixel
    loops (`Math.pow(2, exposure/50)`, `Math.cos`/`Math.sin` of the rotation
    used by the canvas transform) are passed as parameters tied to their
    defining real-number equations by the propositions `isExpMult` and
    `isCosSinDeg`; theorems instantiate them at values where the equations
    are provable (identity settings).
  * Strings are modelled as lists of characters.
-/

/-- An RGB color triple (rational-valued channels). -/
structure Rgb where
  r : ℚ
  g : ℚ
  b : ℚ
deriving DecidableEq

/-- An RGBA pixel as stored in the canvas `ImageData` buffer. -/
structure Pixel where
  r : ℚ
  g : ℚ
  b : ℚ
  a : ℚ
deriving DecidableEq

/-- A raster: width, height, and the pixel at each coordinate.  Pixels
outside `[0,w) × [0,h)` are irrelevant (see `rasterEq`). -/
structure Raster where
  w : ℕ
  h : ℕ
  px : ℕ → ℕ → Pixel

/-- Extensional equality of rasters: same dimensions and same pixels at
every in-range coordinate. -/
def rasterEq (a b : Raster) : Prop :=
  a.w = b.w ∧ a.h = b.h ∧ ∀ x y, x < a.w → y < a.h → a.px x y = b.px x y

/-- The channels of a pixel read from a decoded image lie in `[0, 255]`
(canvas image data is 8-bit unsigned clamped). -/
def pixelInRange (p : Pixel) : Prop :=
  0 ≤ p.r ∧ p.r ≤ 255 ∧ 0 ≤ p.g ∧ p.g ≤ 255 ∧ 0 ≤ p.b ∧ p.b ≤ 255

/-- Channel ranges for a bare color triple. -/
def rgbInRange (c : Rgb) : Prop :=
  0 ≤ c.r ∧ c.r ≤ 255 ∧ 0 ≤ c.g ∧ c.g ≤ 255 ∧ 0 ≤ c.b ∧ c.b ≤ 255

/-- Final per-channel clamp `Math.min(255, Math.max(0, v))` used when the
pixel loops write a channel back into the 8-bit buffer. -/
def clamp255 (v : ℚ) : ℚ := min 255 (max 0 v)

/-- Squared Euclidean distance between a pixel's RGB and the key color,
`(r-key.r)**2 + (g-key.g)**2 + (b-key.b)**2` from the source's distance
computation. -/
def distSq (p : Pixel) (key : Rgb) : ℚ :=
  (p.r - key.r) ^ 2 + (p.g - key.g) ^ 2 + (p.b - key.b) ^ 2

/-- `dist` is the (nonnegative) Euclidean color distance between `p` and
`key`, i.e. the exact value of the source's `Math.sqrt(...)`. -/
def isDist (p : Pixel) (key : Rgb) (dist : ℚ) : Prop :=
  0 ≤ dist ∧ dist ^ 2 = distSq p key

/-- Hex-digit test of the source regex character class `[a-f\d]` under the
case-insensitive flag. -/
def isHexDigit (c : Char) : Bool :=
  (48 ≤ c.toNat && c.toNat ≤ 57) || (97 ≤ c.toNat && c.toNat ≤ 102) ||
    (65 ≤ c.toNat && c.toNat ≤ 70)

/-- Value of a hex digit (`parseInt(-, 16)` on a single digit). -/
def hexVal (c : Char) : ℕ :=
  if c.toNat ≤ 57 then c.toNat - 48
  else if c.toNat ≤ 70 then c.toNat - 55
  else c.toNat - 87

/-- Parse the six-hex-digit body, `hexToRgb` after the optional leading
hash mark has been stripped.  A non-match returns the source's fallback
`{ r: 0, g: 255, b: 0 }`. -/
def hexParse (t : List Char) : Rgb :=
  match t with
  | [h1, h2, h3, h4, h5, h6] =>
    if isHexDigit h1 && isHexDigit h2 && isHexDigit h3 && isHexDigit h4 &&
        isHexDigit h5 && isHexDigit h6 then
      ⟨(16 * hexVal h1 + hexVal h2 : ℕ), (16 * hexVal h3 + hexVal h4 : ℕ),
        (16 * hexVal h5 + hexVal h6 : ℕ)⟩
    else ⟨0, 255, 0⟩
  | _ => ⟨0, 255, 0⟩

/-- The source helper `hexToRgb`: match `/^#?([a-f\d]{2})([a-f\d]{2})([a-f\d]{2})$/i`;
on success parse the three channel pairs, otherwise return pure green
`{ r: 0, g: 255, b: 0 }`. -/
def hexToRgb (s : List Char) : Rgb :=
  if s.head? = some '#' then hexParse s.tail else hexParse s

/-- Exactly six hex digits (one regex group worth of payload). -/
def sixHex (l : List Char) : Bool := (l.length == 6) && l.all isHexDigit

/-- The shape the claim describes: exactly six hexadecimal digits with an
optional leading hash mark. -/
def hexColorShape (s : List Char) : Bool :=
  sixHex s || ((s.head? == some '#') && sixHex s.tail)

/-- Alpha computation of the simple render loops (App.tsx first/second
variants and part_000): `d = dist / 442`; `d < similarity` gives 0,
`d < similarity + smoothness` gives the linear ramp, otherwise 255. -/
def chromaAlpha (similarity smoothness dist : ℚ) : ℚ :=
  let d := dist / 442
  if d < similarity then 0
  else if d < similarity + smoothness then (d - similarity) / smoothness * 255
  else 255

/-- The spec's three-band alpha policy, written from the spec's wording but
with the divisor the code actually uses (442): `d ≥ similarity+smoothness`
is fully opaque, `similarity ≤ d` is on the linear ramp, below that fully
keyed out. -/
def bandAlpha442 (similarity smoothness dist : ℚ) : ℚ :=
  let d := dist / 442
  if similarity + smoothness ≤ d then 255
  else if similarity ≤ d then (d - similarity) / smoothness * 255
  else 0

/-- The claim's alpha policy verbatim: normalized distance obtained by
dividing by 441.67 rather than the code's 442. -/
def specAlpha44167 (similarity smoothness dist : ℚ) : ℚ :=
  let d := dist / (44167 / 100)
  if d < similarity then 0
  else if d < similarity + smoothness then (d - similarity) / smoothness * 255
  else 255

/-- Green-spill clamp: replace green by the average of red and blue when it
exceeds that average (`const avg = (r+b)/2; if (g > avg) g = avg`). -/
def spillGreen (r g b : ℚ) : ℚ :=
  let avg := (r + b) / 2
  if avg < g then avg else g

/-- Keying + spill portion of the simple render loops: alpha from
`chromaAlpha`; inside the `alpha > 0` branch the green channel is
spill-clamped when `d < similarity + spill + smoothness`. -/
def chromaPixelA (similarity smoothness spill dist : ℚ) (p : Pixel) : Pixel :=
  let d := dist / 442
  let alpha := chromaAlpha similarity smoothness dist
  if 0 < alpha then
    if d < similarity + spill + smoothness then
      ⟨p.r, spillGreen p.r p.g p.b, p.b, alpha⟩
    else ⟨p.r, p.g, p.b, alpha⟩
  else ⟨p.r, p.g, p.b, alpha⟩

/-- Alpha computation of the `processComposite` variant (App.tsx third
variant): the ramp value is floored to an integer, and the ramp divides via
the precomputed `smoothnessInv` (0 when smoothness is 0). -/
def chromaAlphaC (similarity smoothness dist : ℚ) : ℤ :=
  let d := dist / 442
  if d < similarity then 0
  else if d < similarity + smoothness then
    ((d - similarity) * (if 0 < smoothness then 1 / smoothness else 0) * 255).floor
  else 255

/-- Keying + spill of the `processComposite` variant: spill is applied when
`d < spillThreshold && alpha > 0` where `spillThreshold = similarity + spill`
(no smoothness term). -/
def chromaPixelC (similarity smoothness spill dist : ℚ) (p : Pixel) : Pixel :=
  let d := dist / 442
  let alpha := chromaAlphaC similarity smoothness dist
  let g1 :=
    if d < similarity + spill ∧ 0 < alpha then spillGreen p.r p.g p.b else p.g
  ⟨p.r, g1, p.b, (alpha : ℚ)⟩

/-- Contrast factor `(259 * (c + 255)) / (255 * (259 - c))` computed by every
variant from its (possibly pre-scaled) contrast value. -/
def contrastFactorOf (c : ℚ) : ℚ := 259 * (c + 255) / (255 * (259 - c))

/-- Luminance weighting `0.299 r + 0.587 g + 0.114 b` used by the brilliance,
highlight/shadow and saturation stages. -/
def luminance (c : Rgb) : ℚ := 0.299 * c.r + 0.587 * c.g + 0.114 * c.b

/-- Sharpening stage of `processComposite` (App.tsx third variant): amplify
the residual against the blurred copy (`br`, `bg2`, `bb`); the source's
guard `blurData && sharpVal > 0` is equivalent to `0 < sharpVal` because the
blur buffer is created exactly when `sharpVal > 0`. -/
def sharpenStage (sharpVal br bg2 bb : ℚ) (c : Rgb) : Rgb :=
  if 0 < sharpVal then
    ⟨c.r + (c.r - br) * sharpVal * 2, c.g + (c.g - bg2) * sharpVal * 2,
      c.b + (c.b - bb) * sharpVal * 2⟩
  else c

/-- Exposure stage: multiplicative gain, skipped when the precomputed
multiplier is exactly 1. -/
def exposureStage (expMult : ℚ) (c : Rgb) : Rgb :=
  if expMult ≠ 1 then ⟨c.r * expMult, c.g * expMult, c.b * expMult⟩ else c

/-- Brilliance stage: luminance-weighted push toward mid-gray. -/
def brillianceStage (brillianceVal : ℚ) (c : Rgb) : Rgb :=
  if brillianceVal ≠ 0 then
    let lum := luminance c
    let adj := brillianceVal / 100 * (128 - lum) * 0.5
    ⟨c.r + adj, c.g + adj, c.b + adj⟩
  else c

/-- Highlights/shadows stage: both corrections read the luminance of the
stage input (the source computes `lum` once, before the shadow add). -/
def highlightShadowStage (highlightsVal shadowsVal : ℚ) (c : Rgb) : Rgb :=
  if highlightsVal ≠ 0 ∨ shadowsVal ≠ 0 then
    let lum := luminance c
    let c1 :=
      if shadowsVal ≠ 0 ∧ lum < 128 then
        let adj := shadowsVal * ((128 - lum) / 128) * 0.6
        (⟨c.r + adj, c.g + adj, c.b + adj⟩ : Rgb)
      else c
    if highlightsVal ≠ 0 ∧ 128 < lum then
      let adj := highlightsVal * ((lum - 128) / 128) * 0.6
      (⟨c1.r + adj, c1.g + adj, c1.b + adj⟩ : Rgb)
    else c1
  else c

/-- Contrast stage of `processComposite`, applied to the pre-scaled
`contrastVal = contrast * 2.55` and skipped when that value is 0. -/
def contrastStage (contrastVal : ℚ) (c : Rgb) : Rgb :=
  if contrastVal ≠ 0 then
    let f := contrastFactorOf contrastVal
    ⟨f * (c.r - 128) + 128, f * (c.g - 128) + 128, f * (c.b - 128) + 128⟩
  else c

/-- Brightness stage: plain additive offset. -/
def brightnessStage (brightnessVal : ℚ) (c : Rgb) : Rgb :=
  if brightnessVal ≠ 0 then
    ⟨c.r + brightnessVal, c.g + brightnessVal, c.b + brightnessVal⟩
  else c

/-- Black-point stage: `Math.max(0, channel - blackPoint)`, skipped when the
control is 0. -/
def blackPointStage (blackPointVal : ℚ) (c : Rgb) : Rgb :=
  if blackPointVal ≠ 0 then
    ⟨max 0 (c.r - blackPointVal), max 0 (c.g - blackPointVal),
      max 0 (c.b - blackPointVal)⟩
  else c

/-- Saturation stage of `processComposite` (`satVal = saturation / 100`). -/
def saturationStage (satVal : ℚ) (c : Rgb) : Rgb :=
  if satVal ≠ 0 then
    let gray := luminance c
    ⟨gray + (c.r - gray) * (1 + satVal), gray + (c.g - gray) * (1 + satVal),
      gray + (c.b - gray) * (1 + satVal)⟩
  else c

/-- Warmth stage: add to red, subtract from blue. -/
def warmthStage (warmthVal : ℚ) (c : Rgb) : Rgb :=
  if warmthVal ≠ 0 then ⟨c.r + warmthVal, c.g, c.b - warmthVal⟩ else c

/-- Tint stage: add to green. -/
def tintStage (tintVal : ℚ) (c : Rgb) : Rgb :=
  if tintVal ≠ 0 then ⟨c.r, c.g + tintVal, c.b⟩ else c

/-- Clamp of all three channels into `[0, 255]`, performed once after all
stages when the loop writes the pixel back. -/
def clampStage (c : Rgb) : Rgb := ⟨clamp255 c.r, clamp255 c.g, clamp255 c.b⟩

/-- The tone-adjustment body of `processComposite` (App.tsx third variant,
the `alpha > 0` branch after spill): sharpening, exposure, brilliance,
highlights/shadows, contrast, brightness, black point, saturation, warmth,
tint, then the final clamp.  Straight-line translation of the source. -/
def tonePixel3 (sharpVal br bg2 bb expMult brillianceVal highlightsVal shadowsVal contrastVal brightnessVal blackPointVal satVal warmthVal tintVal : ℚ) (c : Rgb) : Rgb :=
  let c1 :=
    if 0 < sharpVal then
      (⟨c.r + (c.r - br) * sharpVal * 2, c.g + (c.g - bg2) * sharpVal * 2,
        c.b + (c.b - bb) * sharpVal * 2⟩ : Rgb)
    else c
  let c2 :=
    if expMult ≠ 1 then (⟨c1.r * expMult, c1.g * expMult, c1.b * expMult⟩ : Rgb)
    else c1
  let c3 :=
    if brillianceVal ≠ 0 then
      let lum := luminance c2
      let adj := brillianceVal / 100 * (128 - lum) * 0.5
      (⟨c2.r + adj, c2.g + adj, c2.b + adj⟩ : Rgb)
    else c2
  let c4 :=
    if highlightsVal ≠ 0 ∨ shadowsVal ≠ 0 then
      let lum := luminance c3
      let ca :=
        if shadowsVal ≠ 0 ∧ lum < 128 then
          let adj := shadowsVal * ((128 - lum) / 128) * 0.6
          (⟨c3.r + adj, c3.g + adj, c3.b + adj⟩ : Rgb)
        else c3
      if highlightsVal ≠ 0 ∧ 128 < lum then
        let adj := highlightsVal * ((lum - 128) / 128) * 0.6
        (⟨ca.r + adj, ca.g + adj, ca.b + adj⟩ : Rgb)
      else ca
    else c3
  let c5 :=
    if contrastVal ≠ 0 then
      let f := contrastFactorOf contrastVal
      (⟨f * (c4.r - 128) + 128, f * (c4.g - 128) + 128,
        f * (c4.b - 128) + 128⟩ : Rgb)
    else c4
  let c6 :=
    if brightnessVal ≠ 0 then
      (⟨c5.r + brightnessVal, c5.g + brightnessVal, c5.b + brightnessVal⟩ : Rgb)
    else c5
  let c7 :=
    if blackPointVal ≠ 0 then
      (⟨max 0 (c6.r - blackPointVal), max 0 (c6.g - blackPointVal),
        max 0 (c6.b - blackPointVal)⟩ : Rgb)
    else c6
  let c8 :=
    if satVal ≠ 0 then
      let gray := luminance c7
      (⟨gray + (c7.r - gray) * (1 + satVal), gray + (c7.g - gray) * (1 + satVal),
        gray + (c7.b - gray) * (1 + satVal)⟩ : Rgb)
    else c7
  let c9 :=
    if warmthVal ≠ 0 then (⟨c8.r + warmthVal, c8.g, c8.b - warmthVal⟩ : Rgb)
    else c8
  let c10 :=
    if tintVal ≠ 0 then (⟨c9.r, c9.g + tintVal, c9.b⟩ : Rgb) else c9
  ⟨clamp255 c10.r, clamp255 c10.g, clamp255 c10.b⟩

/-- Tone-adjustment body of the simplified engine (part_000, the
`alpha > 0` branch after spill): exposure and brightness fused in one step,
then black point, contrast, warmth/tint, saturation, final clamp.  The
multiplier `expMult` and the factors `contrastF`, `satF` are the loop's
precomputed constants. -/
def tonePixel0 (expMult brightness blackPoint contrastF warmth tint satF : ℚ) (c : Rgb) : Rgb :=
  let r1 := c.r * expMult + brightness
  let g1 := c.g * expMult + brightness
  let b1 := c.b * expMult + brightness
  let r2 := max 0 (r1 - blackPoint)
  let g2 := max 0 (g1 - blackPoint)
  let b2 := max 0 (b1 - blackPoint)
  let r3 := contrastF * (r2 - 128) + 128
  let g3 := contrastF * (g2 - 128) + 128
  let b3 := contrastF * (b2 - 128) + 128
  let r4 := r3 + warmth
  let b4 := b3 - warmth
  let g4 := g3 + tint
  let gray := 0.299 * r4 + 0.587 * g4 + 0.114 * b4
  let r5 := gray + (r4 - gray) * satF
  let g5 := gray + (g4 - gray) * satF
  let b5 := gray + (b4 - gray) * satF
  ⟨clamp255 r5, clamp255 g5, clamp255 b5⟩

/-- Fused exposure-and-brightness step of the simplified engine. -/
def exposureBrightness0 (expMult brightness : ℚ) (c : Rgb) : Rgb :=
  ⟨c.r * expMult + brightness, c.g * expMult + brightness,
    c.b * expMult + brightness⟩

/-- Unguarded black-point step of the simplified engine. -/
def blackPoint0 (blackPoint : ℚ) (c : Rgb) : Rgb :=
  ⟨max 0 (c.r - blackPoint), max 0 (c.g - blackPoint), max 0 (c.b - blackPoint)⟩

/-- Unguarded contrast step of the simplified engine (factor precomputed). -/
def contrast0 (contrastF : ℚ) (c : Rgb) : Rgb :=
  ⟨contrastF * (c.r - 128) + 128, contrastF * (c.g - 128) + 128,
    contrastF * (c.b - 128) + 128⟩

/-- Warmth step of the simplified engine. -/
def warmth0 (warmth : ℚ) (c : Rgb) : Rgb := ⟨c.r + warmth, c.g, c.b - warmth⟩

/-- Tint step of the simplified engine. -/
def tint0 (tint : ℚ) (c : Rgb) : Rgb := ⟨c.r, c.g + tint, c.b⟩

/-- Saturation step of the simplified engine (factor precomputed). -/
def saturation0 (satF : ℚ) (c : Rgb) : Rgb :=
  let gray := luminance c
  ⟨gray + (c.r - gray) * satF, gray + (c.g - gray) * satF,
    gray + (c.b - gray) * satF⟩

/-- The stage order the claim asserts, instantiated on the stage set of the
simplified engine: exposure (multiplicative), contrast, brightness as a
separate additive offset, black point, saturation, warmth, tint, final
clamp.  Written from the claim text, for comparison with `tonePixel0`. -/
def tonePixelSpecOrder (expMult brightness blackPoint contrastF warmth tint satF : ℚ) (c : Rgb) : Rgb :=
  let r1 := c.r * expMult
  let g1 := c.g * expMult
  let b1 := c.b * expMult
  let r2 := contrastF * (r1 - 128) + 128
  let g2 := contrastF * (g1 - 128) + 128
  let b2 := contrastF * (b1 - 128) + 128
  let r3 := r2 + brightness
  let g3 := g2 + brightness
  let b3 := b2 + brightness
  let r4 := max 0 (r3 - blackPoint)
  let g4 := max 0 (g3 - blackPoint)
  let b4 := max 0 (b3 - blackPoint)
  let gray := 0.299 * r4 + 0.587 * g4 + 0.114 * b4
  let r5 := gray + (r4 - gray) * satF
  let g5 := gray + (g4 - gray) * satF
  let b5 := gray + (b4 - gray) * satF
  let r6 := r5 + warmth
  let b6 := b5 - warmth
  let g6 := g5 + tint
  ⟨clamp255 r6, clamp255 g6, clamp255 b6⟩

/-- Normalized crop rectangle `{ x, y, width, height }` (fractions of the
buffer dimensions). -/
structure CropRect where
  x : ℚ
  y : ℚ
  width : ℚ
  height : ℚ
deriving DecidableEq

/-- The transform settings record, minus the key color (the rotation's
cosine/sine and the exposure multiplier are supplied separately, tied to
`rotate` by `isCosSinDeg`). -/
structure TransformSettings where
  rotate : ℚ
  vertical : ℚ
  horizontal : ℚ
  scale : ℚ
  panX : ℚ
  panY : ℚ
  crop : CropRect

/-- The eleven adjustment sliders of the full engine; the simplified engine
reads only exposure, contrast, saturation, warmth, tint, brightness and
black point. -/
structure ImageAdjustments where
  exposure : ℚ
  brilliance : ℚ
  highlights : ℚ
  shadows : ℚ
  contrast : ℚ
  brightness : ℚ
  blackPoint : ℚ
  saturation : ℚ
  warmth : ℚ
  tint : ℚ
  sharpness : ℚ

/-- All sliders at their default 0. -/
def adjZero : ImageAdjustments := ⟨0, 0, 0, 0, 0, 0, 0, 0, 0, 0, 0⟩

/-- `expMult` is the value of the source's `Math.pow(2, exposure / 50)`
(the simplified engine's scale). -/
def isExpMult (exposure expMult : ℚ) : Prop :=
  (expMult : ℝ) = (2 : ℝ) ^ ((exposure : ℝ) / 50)

/-- `c` and `s` are the cosine and sine of `rotate` degrees, the values the
canvas `rotate(rotate * Math.PI / 180)` call uses. -/
def isCosSinDeg (rotate c s : ℚ) : Prop :=
  (c : ℝ) = Real.cos ((rotate : ℝ) * Real.pi / 180) ∧
    (s : ℝ) = Real.sin ((rotate : ℝ) * Real.pi / 180)

/-- Standard source-over alpha compositing of a foreground pixel onto a
backdrop pixel, the canvas `drawImage` blend (spec §4.6:
`out = fg*a + bg*(1-a)` per channel). -/
def overlayPixel (bgp fgp : Pixel) : Pixel :=
  let a := fgp.a / 255
  ⟨fgp.r * a + bgp.r * (1 - a), fgp.g * a + bgp.g * (1 - a),
    fgp.b * a + bgp.b * (1 - a), fgp.a + bgp.a * (1 - a)⟩

/-- A rational coordinate hits the integer pixel grid inside `[0, bound)`.
Off-grid coordinates return `none`: canvas resampling of non-grid-aligned
draws is implementation-defined filtering and is outside this model; every
theorem below only evaluates draws whose coordinates stay on the grid. -/
def ratToIdx (q : ℚ) (bound : ℕ) : Option ℕ :=
  if q.den = 1 ∧ 0 ≤ q.num ∧ q.num < bound then some q.num.toNat else none

/-- Grid-exact sampling of a raster at a rational source coordinate
(transparent black off the grid or out of bounds, where the canvas paints
nothing). -/
def sampleAt (buf : Raster) (u v : ℚ) : Pixel :=
  match ratToIdx u buf.w, ratToIdx v buf.h with
  | some i, some j => buf.px i j
  | _, _ => ⟨0, 0, 0, 0⟩

/-- Inverse of the canvas transform set up by
`translate(w/2 + panX, h/2 + panY); rotate(θ); scale(k, k)` followed by
`drawImage(layer, -w/2, -h/2)`: maps a destination pixel back to the layer
coordinate it samples. -/
def invAffine (w h c s k panX panY x y : ℚ) : ℚ × ℚ :=
  let dx := x - (w / 2 + panX)
  let dy := y - (h / 2 + panY)
  (((c * dx + s * dy) / k) + w / 2, ((c * dy - s * dx) / k) + h / 2)

/-- Source-over draw of the transformed foreground layer onto the backdrop
buffer.  A destination pixel whose inverse image lies on the layer's pixel
grid composites that layer pixel over the backdrop; otherwise the backdrop
shows through.  A singular transform (`scale = 0`) paints nothing, matching
the canvas rule for non-invertible matrices. -/
def drawTransformed (c s k panX panY : ℚ) (layer : Raster) (bg : ℕ → ℕ → Pixel) : Raster :=
  ⟨layer.w, layer.h, fun x y =>
    if k = 0 then bg x y
    else
      let uv := invAffine layer.w layer.h c s k panX panY x y
      match ratToIdx uv.1 layer.w, ratToIdx uv.2 layer.h with
      | some i, some j => overlayPixel (bg x y) (layer.px i j)
      | _, _ => bg x y⟩

/-- Vertical keystone of part_000: each row `y` is horizontally rescaled by
`1 + ((y/h) - 0.5) * tilt * 2` and re-centered; grid-exact sampling of the
rescaled row. -/
def warpVertical (tilt : ℚ) (img : Raster) : Raster :=
  ⟨img.w, img.h, fun x y =>
    let s := 1 + ((y : ℚ) / img.h - 0.5) * tilt * 2
    if s = 0 then ⟨0, 0, 0, 0⟩
    else
      let u := ((x : ℚ) - ((img.w : ℚ) - img.w * s) / 2) / s
      match ratToIdx u img.w with
      | some i => img.px i y
      | none => ⟨0, 0, 0, 0⟩⟩

/-- Horizontal keystone of part_000: each column `x` is vertically rescaled
by `1 + ((x/w) - 0.5) * tilt * 2` and re-centered. -/
def warpHorizontal (tilt : ℚ) (img : Raster) : Raster :=
  ⟨img.w, img.h, fun x y =>
    let s := 1 + ((x : ℚ) / img.w - 0.5) * tilt * 2
    if s = 0 then ⟨0, 0, 0, 0⟩
    else
      let v := ((y : ℚ) - ((img.h : ℚ) - img.h * s) / 2) / s
      match ratToIdx v img.h with
      | some j => img.px x j
      | none => ⟨0, 0, 0, 0⟩⟩

/-- Perspective stage of part_000: skipped entirely unless a tilt control is
nonzero; otherwise vertical warp (tilt `vertical/200`) then horizontal warp
(tilt `horizontal/200`). -/
def perspectiveWarp (vertical horizontal : ℚ) (img : Raster) : Raster :=
  if vertical ≠ 0 ∨ horizontal ≠ 0 then
    let t1 := if vertical ≠ 0 then warpVertical (vertical / 200) img else img
    if horizontal ≠ 0 then warpHorizontal (horizontal / 200) t1 else t1
  else img

/-- Crop resolution of `processComposite` (the variant with the defensive
clamp): in crop-editing mode the full buffer is shown unmodified; otherwise
the output canvas is sized `max(1, w*crop.width) × max(1, h*crop.height)` —
assigning a fractional value to `canvas.width` truncates it (WebIDL
unsigned-long conversion), modelled by `Rat.floor` (nonnegative here) — and
the content is the 1:1 `drawImage` copy starting at the rational offset
`(w*crop.x, h*crop.y)`. -/
def cropResolve (isCropping : Bool) (c : CropRect) (buf : Raster) : Raster :=
  if isCropping then buf
  else
    let cw := max 1 ((buf.w : ℚ) * c.width)
    let ch := max 1 ((buf.h : ℚ) * c.height)
    let cx := (buf.w : ℚ) * c.x
    let cy := (buf.h : ℚ) * c.y
    ⟨cw.floor.toNat, ch.floor.toNat, fun x y => sampleAt buf (cx + x) (cy + y)⟩

/-- Crop resolution of the simple render variant (App.tsx first variant):
identical, but without the `Math.max(1, ...)` clamp on the output size. -/
def cropResolveSimple (isCropping : Bool) (c : CropRect) (buf : Raster) : Raster :=
  if isCropping then buf
  else
    let cw := (buf.w : ℚ) * c.width
    let ch := (buf.h : ℚ) * c.height
    let cx := (buf.w : ℚ) * c.x
    let cy := (buf.h : ℚ) * c.y
    ⟨cw.floor.toNat, ch.floor.toNat, fun x y => sampleAt buf (cx + x) (cy + y)⟩

/-- Per-pixel foreground processing of the simplified engine (part_000
loop): chroma alpha, then — only when `alpha > 0` — spill suppression and
the tone chain `tonePixel0`, writing the alpha into the pixel. -/
def fgPixel0 (similarity smoothness spill expMult brightness blackPoint contrastF warmth tint satF dist : ℚ) (p : Pixel) : Pixel :=
  let d := dist / 442
  let alpha := chromaAlpha similarity smoothness dist
  if 0 < alpha then
    let g1 :=
      if d < similarity + spill + smoothness then spillGreen p.r p.g p.b else p.g
    let c := tonePixel0 expMult brightness blackPoint contrastF warmth tint satF ⟨p.r, g1, p.b⟩
    ⟨c.r, c.g, c.b, alpha⟩
  else ⟨p.r, p.g, p.b, alpha⟩

/-- The simplified engine's full pipeline (part_000 `processComposite`),
with the backdrop stage abstracted as the already-composed backdrop buffer
`bg` (that stage reads neither the adjustments nor the transform settings)
and the per-pixel key distance supplied as `dist`: per-pixel chroma/tone
processing, perspective stage, affine composite onto the backdrop, crop
resolution. -/
def processComposite0 (fg : Raster) (bg : ℕ → ℕ → Pixel) (dist : ℕ → ℕ → ℚ)
    (similarity smoothness spill : ℚ) (adj : ImageAdjustments) (expMult : ℚ)
    (ts : TransformSettings) (rotC rotS : ℚ) (isCropping : Bool) : Raster :=
  let w := fg.w
  let h := fg.h
  let contrastF := contrastFactorOf adj.contrast
  let satF := 1 + adj.saturation / 100
  let fgProc : Raster :=
    ⟨w, h, fun x y =>
      fgPixel0 similarity smoothness spill expMult adj.brightness adj.blackPoint
        contrastF adj.warmth adj.tint satF (dist x y) (fg.px x y)⟩
  let warped := perspectiveWarp ts.vertical ts.horizontal fgProc
  let buf := drawTransformed rotC rotS ts.scale (ts.panX / 100 * w) (ts.panY / 100 * h) warped bg
  cropResolve isCropping ts.crop buf

/-- Reference composite for the identity-settings claim: only the keying
stage (alpha + spill), alpha-composited onto the backdrop buffer — spec
stages 4.1 + 4.4 + overlay, with nothing from the adjustment or geometric
stages. -/
def chromaOnlyRender (fg : Raster) (bg : ℕ → ℕ → Pixel) (dist : ℕ → ℕ → ℚ)
    (similarity smoothness spill : ℚ) : Raster :=
  ⟨fg.w, fg.h, fun x y =>
    overlayPixel (bg x y) (chromaPixelA similarity smoothness spill (dist x y) (fg.px x y))⟩

/-- Identity transform settings: no rotation or tilt, unit scale, no pan,
full crop. -/
def identityTransform : TransformSettings := ⟨0, 0, 0, 1, 0, 0, ⟨0, 0, 1, 1⟩⟩

/-- The invariant the interactive crop editor maintains (spec §3):
containment in the unit square and a 5% minimum size. -/
def cropInv (c : CropRect) : Prop :=
  0 ≤ c.x ∧ 0 ≤ c.y ∧ c.x + c.width ≤ 1 ∧ c.y + c.height ≤ 1 ∧
    0.05 ≤ c.width ∧ 0.05 ≤ c.height

/-- One step of the App.tsx (third variant) crop-drag handler: all reads are
from the drag-start snapshot `c0`; `move` clamps the position, edge handles
clamp their own dimension, and the `w`/`n` handles clamp the new origin to 0
while widening by the raw delta. -/
def handleCropDrag3 (handle : List Char) (dx dy : ℚ) (c0 : CropRect) : CropRect :=
  if handle = ['m', 'o', 'v', 'e'] then
    { c0 with
      x := min (max 0 (c0.x + dx)) (1 - c0.width),
      y := min (max 0 (c0.y + dy)) (1 - c0.height) }
  else
    let c1 :=
      if handle.contains 'e' then
        { c0 with width := min (max 0.05 (c0.width + dx)) (1 - c0.x) }
      else c0
    let c2 :=
      if handle.contains 's' then
        { c1 with height := min (max 0.05 (c0.height + dy)) (1 - c0.y) }
      else c1
    let c3 :=
      if handle.contains 'w' then
        let d := min dx (c0.width - 0.05)
        { c2 with x := max 0 (c0.x + d), width := c0.width - d }
      else c2
    if handle.contains 'n' then
      let d := min dy (c0.height - 0.05)
      { c3 with y := max 0 (c0.y + d), height := c0.height - d }
    else c3

/-- One step of the part_000 crop-drag handler: the `w`/`n` handles clamp
the new origin into `[0, x + width - 0.05]` and derive the width from it, so
`x + width` is preserved. -/
def handleCropDrag0 (handle : List Char) (dx dy : ℚ) (c0 : CropRect) : CropRect :=
  if handle = ['m', 'o', 'v', 'e'] then
    { c0 with
      x := max 0 (min (1 - c0.width) (c0.x + dx)),
      y := max 0 (min (1 - c0.height) (c0.y + dy)) }
  else
    let c1 :=
      if handle.contains 'e' then
        { c0 with width := max 0.05 (min (1 - c0.x) (c0.width + dx)) }
      else c0
    let c2 :=
      if handle.contains 's' then
        { c1 with height := max 0.05 (min (1 - c1.y) (c0.height + dy)) }
      else c1
    let c3 :=
      if handle.contains 'w' then
        let nx := max 0 (min (c0.x + c0.width - 0.05) (c0.x + dx))
        { c2 with x := nx, width := c0.width - (nx - c0.x) }
      else c2
    if handle.contains 'n' then
      let ny := max 0 (min (c0.y + c0.height - 0.05) (c0.y + dy))
      { c3 with y := ny, height := c0.height - (ny - c0.y) }
    else c3

/-- Processing status enumeration of the source. -/
inductive ProcStatus where
  | IDLE
  | PROCESSING
  | COMPRESSING
  | GENERATING_BG
  | DONE
  | ERROR
deriving DecidableEq

/-- Background-related session state: the installed background raster (by
identifier) and the status surfaced to the UI. -/
structure BgSession where
  bg : Option ℕ
  status : ProcStatus
deriving DecidableEq

/-- Events of the background-generation flow.  `issue p` is a click/Enter on
the generate button with prompt `p`; `succeed n img` is the completion of
the service call for the `n`-th request together with a successful decode of
the returned image; `decodeFail n` is a completed call whose data URL fails
to decode (`img.onload` never fires); `fail n` is a service error (the
handler's catch). -/
inductive BgEvent where
  | issue : List Char → BgEvent
  | succeed : ℕ → ℕ → BgEvent
  | decodeFail : ℕ → BgEvent
  | fail : ℕ → BgEvent

/-- Blank-prompt test, the source's `!aiPrompt.trim()`. -/
def isBlank (s : List Char) : Bool := s.all fun c => c.isWhitespace

/-- Effect of one event on the session state, from `handleGenerateBackground`
(part_000) / `handleAiBg` (App.tsx): an issue with a nonblank prompt sets
GENERATING_BG; a completed+decoded response installs its image and sets
IDLE unconditionally — the handler never consults any request sequencing —
and a service failure only sets ERROR. -/
def bgStep (st : BgSession) (e : BgEvent) : BgSession :=
  match e with
  | BgEvent.issue p => if isBlank p then st else ⟨st.bg, ProcStatus.GENERATING_BG⟩
  | BgEvent.succeed _ img => ⟨some img, ProcStatus.IDLE⟩
  | BgEvent.decodeFail _ => st
  | BgEvent.fail _ => ⟨st.bg, ProcStatus.ERROR⟩

/-- Fold of the event semantics over a trace. -/
def bgRun (st : BgSession) (es : List BgEvent) : BgSession := es.foldl bgStep st

/-- A 1×1 black foreground raster (concrete witness input). -/
def fgUnit : Raster := ⟨1, 1, fun _ _ => ⟨0, 0, 0, 255⟩⟩

/-- A 10×10 opaque black buffer (concrete witness input). -/
def buf10 : Raster := ⟨10, 10, fun _ _ => ⟨0, 0, 0, 255⟩⟩

/-- A 4×4 buffer whose pixel encodes its coordinates (concrete witness
input for the crop-content theorem). -/
def buf4 : Raster := ⟨4, 4, fun x y => ⟨(x : ℚ), (y : ℚ), 0, 255⟩⟩

theorem ratFloor_eq_intFloor (q : ℚ) : q.floor = ⌊q⌋ := rfl

theorem ratToIdx_natCast (x bound : ℕ) (hx : x < bound) :
    ratToIdx (x : ℚ) bound = some x := by
  simp [ratToIdx, Int.lt_iff_add_one_le]
  omega

/-- C1.  Amended: the chroma engine normalizes by 442 (not 441.67); with
that divisor the alpha assignment is exactly the spec's three-band policy
(0 below `similarity`, linear ramp on `[similarity, similarity+smoothness)`,
255 above), and `smoothness = 0` collapses it to a hard step at
`similarity`. -/
theorem c1_alpha_bands_442 (p : Pixel) (key : Rgb) (dist similarity smoothness : ℚ)
    (hd : isDist p key dist) (hs0 : 0 ≤ similarity) (hs1 : similarity ≤ 1)
    (hm0 : 0 ≤ smoothness) (hm1 : smoothness ≤ 1 / 2) :
    chromaAlpha similarity smoothness dist = bandAlpha442 similarity smoothness dist ∧
    (smoothness = 0 →
      chromaAlpha similarity 0 dist = if dist / 442 < similarity then 0 else 255) := by
  constructor
  · simp only [chromaAlpha, bandAlpha442]
    split_ifs <;> first | rfl | linarith
  · intro hm
    simp only [chromaAlpha]
    split_ifs <;> first | rfl | linarith

/-- Witness for C1 at the black pixel against the pure-green key
(`dist = 255`), `similarity = 1/2`, `smoothness = 1/5`. -/
theorem c1_alpha_bands_442_witness :
    (isDist ⟨0, 0, 0, 255⟩ ⟨0, 255, 0⟩ 255 ∧ 0 ≤ (1/2 : ℚ) ∧ (1/2 : ℚ) ≤ 1 ∧
      0 ≤ (1/5 : ℚ) ∧ (1/5 : ℚ) ≤ 1/2) ∧
    chromaAlpha (1/2) (1/5) 255 = bandAlpha442 (1/2) (1/5) 255 ∧
    ((1/5 : ℚ) = 0 →
      chromaAlpha (1/2) 0 255 = if (255 : ℚ) / 442 < 1/2 then 0 else 255) :=
  ⟨⟨⟨by norm_num, by norm_num [distSq]⟩, by norm_num, by norm_num, by norm_num, by norm_num⟩,
    c1_alpha_bands_442 ⟨0, 0, 0, 255⟩ ⟨0, 255, 0⟩ 255 (1/2) (1/5)
      ⟨by norm_num, by norm_num [distSq]⟩ (by norm_num) (by norm_num) (by norm_num)
      (by norm_num)⟩

/-- C1 counterexample: at the black pixel against the pure-green key
(Euclidean distance exactly 255) with `similarity = 1/2`,
`smoothness = 1/5`, the code's alpha (divisor 442) differs from the claim's
alpha (divisor 441.67). -/
theorem c1_divisor_counterexample :
    isDist ⟨0, 0, 0, 255⟩ ⟨0, 255, 0⟩ 255 ∧
    0 ≤ (1/2 : ℚ) ∧ (1/2 : ℚ) ≤ 1 ∧ 0 ≤ (1/5 : ℚ) ∧ (1/5 : ℚ) ≤ 1/2 ∧
    chromaAlpha (1/2) (1/5) 255 ≠ specAlpha44167 (1/2) (1/5) 255 := by
  refine ⟨⟨by norm_num, by norm_num [distSq]⟩, by norm_num, by norm_num, by norm_num,
    by norm_num, ?_⟩
  norm_num [chromaAlpha, specAlpha44167]

theorem hexParse_of_not_sixHex (t : List Char) (h : sixHex t = false) :
    hexParse t = ⟨0, 255, 0⟩ := by
  match t with
  | [] => rfl
  | [a] => rfl
  | [a, b] => rfl
  | [a, b, c] => rfl
  | [a, b, c, d] => rfl
  | [a, b, c, d, e] => rfl
  | [a, b, c, d, e, f] =>
    simp only [sixHex, List.all_cons, List.all_nil, Bool.and_true] at h
    simp only [hexParse]
    rw [if_neg]
    intro hc
    simp only [Bool.and_eq_true] at hc
    simp [hc.1, hc.2] at h
  | a :: b :: c :: d :: e :: f :: g :: rest => rfl

/-- C10.  Any input that is not exactly six hexadecimal digits with an
optional leading hash mark makes `hexToRgb` return the fallback pure green
`{ r: 0, g: 255, b: 0 }`, so an unparsable key color silently keys on pure
green. -/
theorem c10_hex_fallback_green (s : List Char) (h : hexColorShape s = false) :
    hexToRgb s = ⟨0, 255, 0⟩ := by
  unfold hexColorShape at h
  rw [Bool.or_eq_false_iff] at h
  obtain ⟨h1, h2⟩ := h
  unfold hexToRgb
  by_cases hh : s.head? = some '#'
  · rw [if_pos hh]
    apply hexParse_of_not_sixHex
    rw [Bool.and_eq_false_iff] at h2
    rcases h2 with h2 | h2
    · exact absurd hh (by simpa using h2)
    · exact h2
  · rw [if_neg hh]
    exact hexParse_of_not_sixHex s h1

/-- Witness for C10 at the four-character non-hex input `"oops"`. -/
theorem c10_hex_fallback_green_witness :
    hexColorShape ['o', 'o', 'p', 's'] = false ∧
    hexToRgb ['o', 'o', 'p', 's'] = ⟨0, 255, 0⟩ :=
  ⟨by decide, c10_hex_fallback_green ['o', 'o', 'p', 's'] (by decide)⟩

/-- C6 (code bug).  From a rect satisfying the editor invariant
(`x=1/5, y=1/5, width=7/10, height=7/10`), one `w`-handle drag step of the
App.tsx handler with pointer delta `dx = -9/10` produces
`{x=0, y=1/5, width=8/5, height=7/10}`, which violates `x + width ≤ 1`:
the handler clamps the origin to 0 but still widens by the raw delta. -/
theorem c6_crop_drag_invariant_violated :
    cropInv ⟨1/5, 1/5, 7/10, 7/10⟩ ∧
    handleCropDrag3 ['w'] (-(9/10)) 0 ⟨1/5, 1/5, 7/10, 7/10⟩ = ⟨0, 1/5, 8/5, 7/10⟩ ∧
    ¬ cropInv ⟨0, 1/5, 8/5, 7/10⟩ := by
  refine ⟨by norm_num [cropInv], ?_, by norm_num [cropInv]⟩
  simp +decide only [handleCropDrag3, List.contains, List.elem]
  norm_num [max_def, min_def]

set_option maxHeartbeats 2000000 in
/-- The part_000 drag handler preserves the editor invariant for every
handle and pointer delta (supporting evidence that the invariant is the
intended behavior of the crop editor). -/
theorem cropDrag0_preserves_invariant (handle : List Char) (dx dy : ℚ)
    (c0 : CropRect) (h : cropInv c0) : cropInv (handleCropDrag0 handle dx dy c0) := by
  obtain ⟨hx0, hy0, hxw, hyh, hwm, hhm⟩ := h
  simp only [handleCropDrag0, cropInv]
  split_ifs <;>
    refine ⟨?_, ?_, ?_, ?_, ?_, ?_⟩ <;>
    dsimp only <;>
    (try simp only [max_def, min_def]) <;>
    (try split_ifs) <;>
    linarith

/-- C8.  A service failure leaves the installed background unchanged and
surfaces the ERROR status; the background state changes only when a
completed response decodes successfully (and then becomes exactly that
image). -/
theorem c8_bg_failure_safe :
    (∀ st i, (bgStep st (BgEvent.fail i)).bg = st.bg ∧
      (bgStep st (BgEvent.fail i)).status = ProcStatus.ERROR) ∧
    (∀ st e, (bgStep st e).bg = st.bg ∨
      ∃ i img, e = BgEvent.succeed i img ∧ (bgStep st e).bg = some img) := by
  constructor
  · intro st i
    exact ⟨rfl, rfl⟩
  · intro st e
    cases e with
    | issue p =>
      left
      by_cases h : isBlank p <;> simp [bgStep, h]
    | succeed i img => exact Or.inr ⟨i, img, rfl, rfl⟩
    | decodeFail i => exact Or.inl rfl
    | fail i => exact Or.inl rfl

/-- C9.  Amended: the handlers track no request sequencing; a completed and
decoded response is installed unconditionally, so after any trace the last
completion wins — including a stale one. -/
theorem c9_last_completion_wins (st : BgSession) (es : List BgEvent) (i img : ℕ) :
    (bgRun st (es ++ [BgEvent.succeed i img])).bg = some img := by
  simp [bgRun, List.foldl_append, bgStep]

/-- C9 counterexample: request 1 is issued, then request 2; request 2's
response (image 202) completes first, then request 1's stale response
(image 101) completes — and is installed, so the final background is the
stale image 101, not 202 as the claim requires. -/
theorem c9_stale_installed_counterexample :
    (bgRun ⟨none, ProcStatus.IDLE⟩
      [BgEvent.issue ['a'], BgEvent.issue ['b'], BgEvent.succeed 2 202,
        BgEvent.succeed 1 101]).bg = some 101 ∧
    some 101 ≠ some 202 := by
  constructor
  · simp [bgRun, bgStep, isBlank]
  · simp

/-- C2.  Amended: in the simple render loops spill suppression applies
exactly when `alpha > 0` and `d < similarity + spill + smoothness` (so its
radius dominates the alpha ramp radius whenever `spill ≥ 0`), replacing
green by the red/blue average when green exceeds it; but in the
`processComposite` variant the spill window is `d < similarity + spill`
(no smoothness term), whose radius dominates the ramp radius only when
`spill ≥ smoothness`. -/
theorem c2_spill_characterization (similarity smoothness spill dist : ℚ) (p : Pixel)
    (hsp : 0 ≤ spill) :
    chromaPixelA similarity smoothness spill dist p =
      ⟨p.r,
        if 0 < chromaAlpha similarity smoothness dist ∧
            dist / 442 < similarity + spill + smoothness then
          spillGreen p.r p.g p.b
        else p.g,
        p.b, chromaAlpha similarity smoothness dist⟩ ∧
    similarity + smoothness ≤ similarity + spill + smoothness ∧
    chromaPixelC similarity smoothness spill dist p =
      ⟨p.r,
        if 0 < chromaAlphaC similarity smoothness dist ∧
            dist / 442 < similarity + spill then
          spillGreen p.r p.g p.b
        else p.g,
        p.b, (chromaAlphaC similarity smoothness dist : ℚ)⟩ := by
  refine ⟨?_, by linarith, ?_⟩
  · simp only [chromaPixelA]
    split_ifs with h1 h2 h3 h3 <;> simp_all
  · simp only [chromaPixelC]
    split_ifs with h1 h2 h2 <;> simp_all

/-- Witness for C2 at `similarity = 1/10`, `smoothness = 3/10`,
`spill = 1/10`, distance 132, pixel `(0, 123, 0)`. -/
theorem c2_spill_characterization_witness :
    0 ≤ (1/10 : ℚ) ∧
    (chromaPixelA (1/10) (3/10) (1/10) 132 ⟨0, 123, 0, 255⟩ =
      ⟨0,
        if 0 < chromaAlpha (1/10) (3/10) 132 ∧
            (132 : ℚ) / 442 < 1/10 + 1/10 + 3/10 then
          spillGreen 0 123 0
        else 123,
        0, chromaAlpha (1/10) (3/10) 132⟩ ∧
      (1/10 : ℚ) + 3/10 ≤ 1/10 + 1/10 + 3/10 ∧
      chromaPixelC (1/10) (3/10) (1/10) 132 ⟨0, 123, 0, 255⟩ =
        ⟨0,
          if 0 < chromaAlphaC (1/10) (3/10) 132 ∧
              (132 : ℚ) / 442 < 1/10 + 1/10 then
            spillGreen 0 123 0
          else 123,
          0, (chromaAlphaC (1/10) (3/10) 132 : ℚ)⟩) :=
  ⟨by norm_num, c2_spill_characterization (1/10) (3/10) (1/10) 132 ⟨0, 123, 0, 255⟩ (by norm_num)⟩

/-- C2 counterexample: with `similarity = 1/10`, `smoothness = 3/10`,
`spill = 1/10`, the pixel `(0, 123, 0)` at distance 132 from the pure-green
key satisfies the claim's spill condition (`alpha > 0` and
`d < similarity + smoothness + spill`) and its green exceeds the red/blue
average, yet the `processComposite` engine leaves green at 123 instead of
clamping it to the average 0. -/
theorem c2_spill_threshold_counterexample :
    isDist ⟨0, 123, 0, 255⟩ ⟨0, 255, 0⟩ 132 ∧
    0 < (chromaPixelC (1/10) (3/10) (1/10) 132 ⟨0, 123, 0, 255⟩).a ∧
    (132 : ℚ) / 442 < 1/10 + 3/10 + 1/10 ∧
    ((0 : ℚ) + 0) / 2 < 123 ∧
    (chromaPixelC (1/10) (3/10) (1/10) 132 ⟨0, 123, 0, 255⟩).g = 123 ∧
    (123 : ℚ) ≠ ((0 : ℚ) + 0) / 2 := by
  refine ⟨⟨by norm_num, by norm_num [distSq]⟩, ?_, by norm_num, by norm_num, ?_, by norm_num⟩
  · norm_num [chromaPixelC, chromaAlphaC, spillGreen, Rat.floor]
  · norm_num [chromaPixelC, chromaAlphaC, spillGreen, Rat.floor]

/-- C3.  Amended: the `processComposite` tone engine applies its stages in
exactly the documented order — sharpening, exposure, brilliance,
highlights/shadows, contrast, brightness, black point, saturation, warmth,
tint — each reading the previous stage's output, with the clamp to
`[0, 255]` applied once after all stages; the simplified engine instead
fuses brightness into the exposure step before contrast, applies black
point before contrast, and applies warmth/tint before saturation. -/
theorem c3_stage_order (sharpVal br bg2 bb expMult brillianceVal highlightsVal shadowsVal contrastVal brightnessVal blackPointVal satVal warmthVal tintVal em bv bp cf wv tv sf : ℚ) (c c0 : Rgb) :
    tonePixel3 sharpVal br bg2 bb expMult brillianceVal highlightsVal shadowsVal
        contrastVal brightnessVal blackPointVal satVal warmthVal tintVal c =
      clampStage (tintStage tintVal (warmthStage warmthVal (saturationStage satVal
        (blackPointStage blackPointVal (brightnessStage brightnessVal
          (contrastStage contrastVal (highlightShadowStage highlightsVal shadowsVal
            (brillianceStage brillianceVal (exposureStage expMult
              (sharpenStage sharpVal br bg2 bb c)))))))))) ∧
    tonePixel0 em bv bp cf wv tv sf c0 =
      clampStage (saturation0 sf (tint0 tv (warmth0 wv (contrast0 cf
        (blackPoint0 bp (exposureBrightness0 em bv c0)))))) :=
  ⟨rfl, rfl⟩

/-- C3 counterexample: on the simplified engine with exposure multiplier 1,
brightness 10, contrast factor for contrast 50, all else identity, the gray
pixel `(100, 100, 100)` comes out different from what the claim's stage
order (brightness only after contrast) produces. -/
theorem c3_order_counterexample :
    tonePixel0 1 10 0 (contrastFactorOf 50) 0 0 1 ⟨100, 100, 100⟩ ≠
      tonePixelSpecOrder 1 10 0 (contrastFactorOf 50) 0 0 1 ⟨100, 100, 100⟩ := by
  norm_num [tonePixel0, tonePixelSpecOrder, contrastFactorOf, clamp255, max_def, min_def]

/-- C7.  Amended: the `processComposite` crop resolver clamps the output
dimensions to a minimum of one pixel for every crop rect (in particular for
zero-area rects); the simple render variant lacks the clamp and produces a
zero-sized output there. -/
theorem c7_crop_min_dims (c : CropRect) (buf : Raster) :
    1 ≤ (cropResolve false c buf).w ∧ 1 ≤ (cropResolve false c buf).h := by
  constructor
  · show 1 ≤ (max 1 ((buf.w : ℚ) * c.width)).floor.toNat
    have h2 : (1 : ℤ) ≤ (max 1 ((buf.w : ℚ) * c.width)).floor :=
      Rat.le_floor.mpr (by exact_mod_cast le_max_left 1 ((buf.w : ℚ) * c.width))
    exact Int.lt_toNat.mpr (by omega)
  · show 1 ≤ (max 1 ((buf.h : ℚ) * c.height)).floor.toNat
    have h2 : (1 : ℤ) ≤ (max 1 ((buf.h : ℚ) * c.height)).floor :=
      Rat.le_floor.mpr (by exact_mod_cast le_max_left 1 ((buf.h : ℚ) * c.height))
    exact Int.lt_toNat.mpr (by omega)

/-- C7 counterexample: the simple render variant's crop stage at a
zero-area crop rect produces a width-0 output, not the claimed ≥ 1 pixel. -/
theorem c7_no_clamp_counterexample :
    (cropResolveSimple false ⟨0, 0, 0, 0⟩ buf10).w = 0 ∧
    ¬ 1 ≤ (cropResolveSimple false ⟨0, 0, 0, 0⟩ buf10).w := by
  constructor
  · norm_num [cropResolveSimple, buf10, Rat.floor]
  · norm_num [cropResolveSimple, buf10, Rat.floor]

/-- C5 counterexample: a valid crop rect `width = height = 7/20` on the
10×10 buffer gives output width 3 — `canvas.width` truncates the fractional
3.5 — while the claim's `round(width * W)` is 4. -/
theorem c5_round_counterexample :
    (0 : ℚ) + 7/20 ≤ 1 ∧
    (cropResolve false ⟨0, 0, 7/20, 7/20⟩ buf10).w = 3 ∧
    round ((buf10.w : ℚ) * (7/20)) = 4 ∧
    (3 : ℕ) ≠ 4 := by
  refine ⟨by norm_num, ?_, ?_, by norm_num⟩
  · norm_num [cropResolve, buf10, max_def, Rat.floor]
    decide
  · show round ((10 : ℚ) * (7/20)) = 4
    norm_num [round_eq]

/-- C5.  Amended: with the interactive-crop flag set the resolver returns
the full buffer unmodified; otherwise the output dimensions are the
truncation `⌊width*W⌋ × ⌊height*H⌋` (clamped below by 1; truncation, not
rounding, because assigning a fractional value to `canvas.width`
truncates), and whenever the denormalized origin lands on the pixel grid
the content is the exact 1:1 sub-rectangle copy of the uncropped
composite. -/
theorem c5_crop_containment (buf : Raster) (c : CropRect) (nx ny : ℕ)
    (hx : (nx : ℚ) = (buf.w : ℚ) * c.x) (hy : (ny : ℚ) = (buf.h : ℚ) * c.y)
    (hw1 : 1 ≤ (buf.w : ℚ) * c.width) (hh1 : 1 ≤ (buf.h : ℚ) * c.height)
    (hxw : c.x + c.width ≤ 1) (hyh : c.y + c.height ≤ 1)
    (hx0 : 0 ≤ c.x) (hy0 : 0 ≤ c.y) :
    cropResolve true c buf = buf ∧
    (cropResolve false c buf).w = ((buf.w : ℚ) * c.width).floor.toNat ∧
    (cropResolve false c buf).h = ((buf.h : ℚ) * c.height).floor.toNat ∧
    ∀ x y, x < (cropResolve false c buf).w → y < (cropResolve false c buf).h →
      (cropResolve false c buf).px x y = buf.px (nx + x) (ny + y) := by
  have hdw : (cropResolve false c buf).w = ((buf.w : ℚ) * c.width).floor.toNat := by
    show (max 1 ((buf.w : ℚ) * c.width)).floor.toNat = _
    rw [max_eq_right hw1]
  have hdh : (cropResolve false c buf).h = ((buf.h : ℚ) * c.height).floor.toNat := by
    show (max 1 ((buf.h : ℚ) * c.height)).floor.toNat = _
    rw [max_eq_right hh1]
  refine ⟨rfl, hdw, hdh, ?_⟩
  intro x y hxlt hylt
  rw [hdw] at hxlt
  rw [hdh] at hylt
  have hxq : (x : ℚ) + 1 ≤ (buf.w : ℚ) * c.width := by
    have h1 : ((x : ℤ) + 1 : ℤ) ≤ ((buf.w : ℚ) * c.width).floor := Int.lt_toNat.mp hxlt
    have h3 : (((x : ℤ) + 1 : ℤ) : ℚ) ≤ (buf.w : ℚ) * c.width := Rat.le_floor.mp h1
    push_cast at h3
    linarith
  have hyq : (y : ℚ) + 1 ≤ (buf.h : ℚ) * c.height := by
    have h1 : ((y : ℤ) + 1 : ℤ) ≤ ((buf.h : ℚ) * c.height).floor := Int.lt_toNat.mp hylt
    have h3 : (((y : ℤ) + 1 : ℤ) : ℚ) ≤ (buf.h : ℚ) * c.height := Rat.le_floor.mp h1
    push_cast at h3
    linarith
  have hnx : nx + x < buf.w := by
    have hq : ((nx + x : ℕ) : ℚ) < (buf.w : ℚ) := by
      push_cast
      nlinarith [Nat.cast_nonneg (α := ℚ) buf.w]
    exact_mod_cast hq
  have hny : ny + y < buf.h := by
    have hq : ((ny + y : ℕ) : ℚ) < (buf.h : ℚ) := by
      push_cast
      nlinarith [Nat.cast_nonneg (α := ℚ) buf.h]
    exact_mod_cast hq
  show sampleAt buf ((buf.w : ℚ) * c.x + (x : ℚ)) ((buf.h : ℚ) * c.y + (y : ℚ)) =
    buf.px (nx + x) (ny + y)
  rw [← hx, ← hy]
  have e1 : (nx : ℚ) + (x : ℚ) = ((nx + x : ℕ) : ℚ) := by push_cast; ring
  have e2 : (ny : ℚ) + (y : ℚ) = ((ny + y : ℕ) : ℚ) := by push_cast; ring
  rw [e1, e2]
  unfold sampleAt
  rw [ratToIdx_natCast _ _ hnx, ratToIdx_natCast _ _ hny]

/-- Witness for C5 on the 4×4 coordinate buffer with the centered half-size
crop rect `(1/4, 1/4, 1/2, 1/2)` (denormalized origin `(1,1)`). -/
theorem c5_crop_containment_witness :
    cropResolve true ⟨1/4, 1/4, 1/2, 1/2⟩ buf4 = buf4 ∧
    (cropResolve false ⟨1/4, 1/4, 1/2, 1/2⟩ buf4).w = ((buf4.w : ℚ) * (1/2)).floor.toNat ∧
    (cropResolve false ⟨1/4, 1/4, 1/2, 1/2⟩ buf4).h = ((buf4.h : ℚ) * (1/2)).floor.toNat ∧
    ∀ x y, x < (cropResolve false ⟨1/4, 1/4, 1/2, 1/2⟩ buf4).w →
      y < (cropResolve false ⟨1/4, 1/4, 1/2, 1/2⟩ buf4).h →
      (cropResolve false ⟨1/4, 1/4, 1/2, 1/2⟩ buf4).px x y = buf4.px (1 + x) (1 + y) :=
  c5_crop_containment buf4 ⟨1/4, 1/4, 1/2, 1/2⟩ 1 1 (by norm_num [buf4])
    (by norm_num [buf4]) (by norm_num [buf4]) (by norm_num [buf4]) (by norm_num)
    (by norm_num) (by norm_num) (by norm_num)

theorem contrastFactorOf_zero : contrastFactorOf 0 = 1 := by
  norm_num [contrastFactorOf]

theorem clamp255_of_range (v : ℚ) (h0 : 0 ≤ v) (h1 : v ≤ 255) : clamp255 v = v := by
  simp [clamp255, max_eq_right h0, min_eq_right h1]

theorem tonePixel0_identity (c : Rgb) (h : rgbInRange c) :
    tonePixel0 1 0 0 1 0 0 1 c = c := by
  obtain ⟨hr0, hr1, hg0, hg1, hb0, hb1⟩ := h
  rcases c with ⟨cr, cg, cb⟩
  simp only [tonePixel0, mul_one, one_mul, add_zero, sub_zero] at *
  rw [max_eq_right hr0, max_eq_right hg0, max_eq_right hb0]
  ring_nf
  rw [clamp255_of_range _ hr0 hr1, clamp255_of_range _ hg0 hg1,
    clamp255_of_range _ hb0 hb1]

theorem spillGreen_range (r g b : ℚ) (hr0 : 0 ≤ r) (hr1 : r ≤ 255) (hg0 : 0 ≤ g)
    (hg1 : g ≤ 255) (hb0 : 0 ≤ b) (hb1 : b ≤ 255) :
    0 ≤ spillGreen r g b ∧ spillGreen r g b ≤ 255 := by
  simp only [spillGreen]
  split_ifs <;> constructor <;> linarith

theorem fgPixel0_identity (similarity smoothness spill dist : ℚ) (p : Pixel)
    (hp : pixelInRange p) :
    fgPixel0 similarity smoothness spill 1 0 0 1 0 0 1 dist p =
      chromaPixelA similarity smoothness spill dist p := by
  obtain ⟨hr0, hr1, hg0, hg1, hb0, hb1⟩ := hp
  simp only [fgPixel0, chromaPixelA]
  split_ifs with h1 h2
  · obtain ⟨hs0, hs1⟩ := spillGreen_range p.r p.g p.b hr0 hr1 hg0 hg1 hb0 hb1
    rw [tonePixel0_identity ⟨p.r, spillGreen p.r p.g p.b, p.b⟩ ⟨hr0, hr1, hs0, hs1, hb0, hb1⟩]
  · rw [tonePixel0_identity ⟨p.r, p.g, p.b⟩ ⟨hr0, hr1, hg0, hg1, hb0, hb1⟩]
  · rfl

theorem perspectiveWarp_zero (img : Raster) : perspectiveWarp 0 0 img = img := by
  simp [perspectiveWarp]

theorem drawTransformed_identity (layer : Raster) (bg : ℕ → ℕ → Pixel) (x y : ℕ)
    (hx : x < layer.w) (hy : y < layer.h) :
    (drawTransformed 1 0 1 0 0 layer bg).px x y = overlayPixel (bg x y) (layer.px x y) := by
  show (if (1 : ℚ) = 0 then bg x y
    else
      match ratToIdx (invAffine layer.w layer.h 1 0 1 0 0 x y).1 layer.w,
          ratToIdx (invAffine layer.w layer.h 1 0 1 0 0 x y).2 layer.h with
      | some i, some j => overlayPixel (bg x y) (layer.px i j)
      | _, _ => bg x y) = overlayPixel (bg x y) (layer.px x y)
  rw [if_neg one_ne_zero]
  have h1 : (invAffine layer.w layer.h 1 0 1 0 0 x y).1 = (x : ℚ) := by
    simp only [invAffine]
    ring
  have h2 : (invAffine layer.w layer.h 1 0 1 0 0 x y).2 = (y : ℚ) := by
    simp only [invAffine]
    ring
  rw [h1, h2, ratToIdx_natCast x layer.w hx, ratToIdx_natCast y layer.h hy]

theorem cropResolve_full (buf : Raster) (hw : 0 < buf.w) (hh : 0 < buf.h) :
    (cropResolve false ⟨0, 0, 1, 1⟩ buf).w = buf.w ∧
    (cropResolve false ⟨0, 0, 1, 1⟩ buf).h = buf.h ∧
    ∀ x y, x < buf.w → y < buf.h →
      (cropResolve false ⟨0, 0, 1, 1⟩ buf).px x y = buf.px x y := by
  have hw1 : (1 : ℚ) ≤ (buf.w : ℚ) := by exact_mod_cast hw
  have hh1 : (1 : ℚ) ≤ (buf.h : ℚ) := by exact_mod_cast hh
  refine ⟨?_, ?_, ?_⟩
  · show (max 1 ((buf.w : ℚ) * 1)).floor.toNat = buf.w
    rw [mul_one, max_eq_right hw1, ratFloor_eq_intFloor, Int.floor_natCast,
      Int.toNat_natCast]
  · show (max 1 ((buf.h : ℚ) * 1)).floor.toNat = buf.h
    rw [mul_one, max_eq_right hh1, ratFloor_eq_intFloor, Int.floor_natCast,
      Int.toNat_natCast]
  · intro x y hx hy
    show sampleAt buf ((buf.w : ℚ) * 0 + (x : ℚ)) ((buf.h : ℚ) * 0 + (y : ℚ)) = buf.px x y
    rw [show (buf.w : ℚ) * 0 + (x : ℚ) = ((x : ℕ) : ℚ) by push_cast; ring,
      show (buf.h : ℚ) * 0 + (y : ℚ) = ((y : ℕ) : ℚ) by push_cast; ring]
    unfold sampleAt
    rw [ratToIdx_natCast x buf.w hx, ratToIdx_natCast y buf.h hy]

/-- C4.  With every adjustment at its default 0 and the transform at
identity (no rotation, tilt or pan, unit scale, full crop, crop-edit flag
off), the full pipeline renders exactly the chroma-keyed (alpha + spill)
foreground alpha-composited onto the backdrop buffer: the adjustment and
geometric stages contribute nothing. -/
theorem c4_identity_settings (fg : Raster) (bg : ℕ → ℕ → Pixel) (dist : ℕ → ℕ → ℚ)
    (similarity smoothness spill expMult rotC rotS : ℚ)
    (hw : 0 < fg.w) (hh : 0 < fg.h)
    (hin : ∀ x y, pixelInRange (fg.px x y))
    (hexp : isExpMult 0 expMult)
    (hrot : isCosSinDeg 0 rotC rotS) :
    rasterEq
      (processComposite0 fg bg dist similarity smoothness spill adjZero expMult
        identityTransform rotC rotS false)
      (chromaOnlyRender fg bg dist similarity smoothness spill) := by
  have hexp1 : expMult = 1 := by
    have h := hexp
    simp only [isExpMult, Rat.cast_zero, zero_div, Real.rpow_zero] at h
    exact_mod_cast h
  have hzero : ((0 : ℚ) : ℝ) * Real.pi / 180 = 0 := by
    push_cast
    ring
  have hcos : rotC = 1 := by
    have h := hrot.1
    rw [hzero, Real.cos_zero] at h
    exact_mod_cast h
  have hsin : rotS = 0 := by
    have h := hrot.2
    rw [hzero, Real.sin_zero] at h
    exact_mod_cast h
  subst hexp1 hcos hsin
  simp only [processComposite0, identityTransform, adjZero, perspectiveWarp_zero,
    contrastFactorOf_zero, zero_div, zero_mul, add_zero]
  set layer : Raster :=
    ⟨fg.w, fg.h, fun x y =>
      fgPixel0 similarity smoothness spill 1 0 0 1 0 0 1 (dist x y) (fg.px x y)⟩
    with hlayer
  obtain ⟨hcw, hch, hcpx⟩ := cropResolve_full (drawTransformed 1 0 1 0 0 layer bg) hw hh
  refine ⟨?_, ?_, ?_⟩
  · exact hcw
  · exact hch
  · intro x y hx hy
    rw [hcw] at hx
    rw [hch] at hy
    rw [hcpx x y hx hy]
    rw [drawTransformed_identity layer bg x y hx hy]
    show overlayPixel (bg x y)
        (fgPixel0 similarity smoothness spill 1 0 0 1 0 0 1 (dist x y) (fg.px x y)) =
      overlayPixel (bg x y) (chromaPixelA similarity smoothness spill (dist x y) (fg.px x y))
    rw [fgPixel0_identity similarity smoothness spill (dist x y) (fg.px x y) (hin x y)]

/-- Witness for C4: a 1×1 black foreground over a constant backdrop with the
default chroma settings and identity adjustments/transform. -/
theorem c4_identity_settings_witness :
    rasterEq
      (processComposite0 fgUnit (fun _ _ => ⟨7, 8, 9, 255⟩) (fun _ _ => 255)
        (7/20) (1/10) (1/10) adjZero 1 identityTransform 1 0 false)
      (chromaOnlyRender fgUnit (fun _ _ => ⟨7, 8, 9, 255⟩) (fun _ _ => 255)
        (7/20) (1/10) (1/10)) :=
  c4_identity_settings fgUnit (fun _ _ => ⟨7, 8, 9, 255⟩) (fun _ _ => 255)
    (7/20) (1/10) (1/10) 1 1 0 (by norm_num [fgUnit]) (by norm_num [fgUnit])
    (fun x y => by norm_num [fgUnit, pixelInRange])
    (by simp [isExpMult])
    (by
      constructor
      · rw [show ((0 : ℚ) : ℝ) * Real.pi / 180 = 0 by push_cast; ring, Real.cos_zero]
        norm_num
      · rw [show ((0 : ℚ) : ℝ) * Real.pi / 180 = 0 by push_cast; ring, Real.sin_zero]
        norm_num)
